import Mathlib

/-
Verification of the XinobiAgent agent/tool/conversation engine.

Shallow embedding of the Python sources:
  app/schema/message.py, app/agent/base.py, app/agent/generic_agent.py,
  app/agent/toolcall.py, app/agent/langchain_agent.py, app/tool/base.py,
  app/tool/collection.py, app/tool/terminate.py,
  enhanced_devin/core/base_agent.py, enhanced_devin/core/generic_agent.py,
  enhanced_devin/tools/tool_registry.py.

External effects (OpenAI / LangChain calls, tool side effects, JSON parsing
of model output) are modelled as explicit oracle parameters; everything the
engine itself computes is embedded as executable Lean definitions.
-/

namespace Xinobi

/-- Single-quote character (ASCII 39), used to spell the quote marks that the
Python sources put inside error strings. -/
def sq : String := String.mk [Char.ofNat 39]

/-- Message record from app/schema/message.py: a role (one of user, assistant,
system, enforced by `Literal` in the source) and a content string. -/
structure Message where
  role : String
  content : String
deriving Repr, DecidableEq

/-- Message.user_message classmethod (app/schema/message.py). -/
def Message.user_message (content : String) : Message := ⟨"user", content⟩

/-- Message.assistant_message classmethod (app/schema/message.py). -/
def Message.assistant_message (content : String) : Message := ⟨"assistant", content⟩

/-- Message.system_message classmethod (app/schema/message.py). -/
def Message.system_message (content : String) : Message := ⟨"system", content⟩

/-- BaseAgent.update_memory from app/agent/base.py (lines 90-105): dispatch on
the role string, appending the corresponding Message to memory; any other
role raises ValueError, modelled as `Except.error`.  The memory is passed and
returned explicitly; on the error path the (unchanged) memory is simply not
returned, matching the Python raise happening before any append. -/
def BaseAgent.update_memory (memory : List Message) (role content : String) :
    Except String (List Message) :=
  if role = "user" then .ok (memory ++ [Message.user_message content])
  else if role = "assistant" then .ok (memory ++ [Message.assistant_message content])
  else if role = "system" then .ok (memory ++ [Message.system_message content])
  else .error ("Invalid role: " ++ role)

/-- BaseTool from app/tool/base.py.  The contract entry point is `execute`
(lines 24-34).  Some concrete tools in the repository (app/tool/canva_api.py)
additionally define a `run` method; `runAttr` is `some f` exactly for those.
Python attribute lookup of `.run` on a tool with `runAttr = none` raises
AttributeError.  `pyClassName` is the Python class name, used only to spell
the AttributeError text.  Keyword arguments are modelled as association
lists; a raising call is an `Except.error` carrying `str(e)`. -/
structure BaseTool where
  name : String
  pyClassName : String
  execute : List (String × String) → Except String String
  runAttr : Option (List (String × String) → Except String String) := none

/-- Python str.lower, character by character (tool names in the repository
are ASCII, where this agrees with Python). -/
def pyLower (s : String) : String := String.mk (s.data.map Char.toLower)

/-- ToolCollection.get_tool from app/tool/collection.py (lines 32-45): scan
the tool list front to back and return the first tool whose lowercased name
equals the lowercased query; None when no tool matches. -/
def ToolCollection.get_tool (tools : List BaseTool) (name : String) : Option BaseTool :=
  tools.find? (fun t => pyLower t.name == pyLower name)

/-- ToolCollection.add_tool from app/tool/collection.py (lines 47-54):
append to the list. -/
def ToolCollection.add_tool (tools : List BaseTool) (t : BaseTool) : List BaseTool :=
  tools ++ [t]

/-- ToolRegistry.register_tool from enhanced_devin/tools/tool_registry.py
(lines 49-79): `self.tools[tool_name] = {...}` on a Python dict.  A Python
dict is insertion-ordered with exact-key overwrite keeping the position, so
assignment replaces the value of the first (only) matching key in place, and
appends a fresh entry otherwise.  The stored payload (class plus metadata)
is abstracted as `α`. -/
def ToolRegistry.register_tool {α : Type} (reg : List (String × α)) (name : String) (v : α) :
    List (String × α) :=
  match reg with
  | [] => [(name, v)]
  | p :: rest =>
    if p.1 = name then (name, v) :: rest
    else p :: ToolRegistry.register_tool rest name v

/-- ToolRegistry.get_tool from enhanced_devin/tools/tool_registry.py
(lines 97-109): exact, case-sensitive dict lookup. -/
def ToolRegistry.get_tool {α : Type} (reg : List (String × α)) (name : String) : Option α :=
  (reg.find? (fun p => p.1 == name)).map (fun p => p.2)

/-- Concrete tool used in the registry counterexample: named "Echo". -/
def echoUpper : BaseTool :=
  { name := "Echo", pyClassName := "EchoA", execute := fun _ => .ok "A" }

/-- Concrete tool used in the registry counterexample: named "echo". -/
def echoLower : BaseTool :=
  { name := "echo", pyClassName := "EchoB", execute := fun _ => .ok "B" }

/-- Python str.startswith, over the character lists of the strings. -/
def pyStartsWith (s pre : String) : Bool := pre.data.isPrefixOf s.data

/-- Python slicing s[n:], over the character list of the string. -/
def pyDrop (s : String) (n : Nat) : String := String.mk (s.data.drop n)

/-- Python str.strip with no argument: remove whitespace from both ends. -/
def pyStrip (s : String) : String :=
  String.mk (((s.data.dropWhile Char.isWhitespace).reverse.dropWhile Char.isWhitespace).reverse)

/-- Think/act loop of BaseAgent.run from app/agent/base.py (lines 72-88).
The concrete think() and act() bodies live in subclasses and call the
external model, so one loop iteration is abstracted as a script entry
(hasActions, result): think() returned hasActions and, when it was true,
act() returned result.  The Python loop is `while True`; a run that
exhausts the script without think returning false and without a terminate
marker corresponds to `none` (the loop would keep calling think/act).  On
exit the final result is returned together with the unconsumed script tail,
so that "no further think()/act() call occurs" is visible in the model. -/
def BaseAgent.runLoop : List (Bool × String) → Option (String × List (Bool × String))
  | [] => none
  | (hasActions, result) :: rest =>
    if hasActions = false then some ("Task completed successfully", rest)
    else if pyStartsWith result "TERMINATING:" then
      some (pyStrip (pyDrop result ("TERMINATING:".length)), rest)
    else BaseAgent.runLoop rest

/-- Memory seeding of BaseAgent.run from app/agent/base.py (lines 63-69):
append the request as a user message if given, then insert the system
prompt at the front unless a system message is already present. -/
def BaseAgent.seed_memory (system_prompt : String) (request : Option String)
    (memory : List Message) : List Message :=
  let memory := match request with
    | some r => memory ++ [Message.user_message r]
    | none => memory
  if memory.any (fun m => m.role == "system") then memory
  else Message.system_message system_prompt :: memory

/-- BaseAgent.run from app/agent/base.py (lines 53-88): seed the memory,
then run the think/act loop. -/
def BaseAgent.run (system_prompt : String) (request : Option String)
    (memory : List Message) (script : List (Bool × String)) :
    List Message × Option (String × List (Bool × String)) :=
  (BaseAgent.seed_memory system_prompt request memory, BaseAgent.runLoop script)

/-- Terminate.execute from app/tool/terminate.py (lines 20-30). -/
def Terminate.execute (message : Option String) : String :=
  "TERMINATING: " ++ message.getD "Task completed"

/-- Step dictionary of the app GenericAgent (app/agent/generic_agent.py):
built during backwards planning with a description, and mutated during act()
with the tool used, its arguments and the recorded result. -/
structure GStep where
  description : String
  tool_used : Option String := none
  tool_args : Option (List (String × String)) := none
  result : Option String := none
deriving Repr, DecidableEq

/-- State of the app GenericAgent (app/agent/generic_agent.py, fields
declared on lines 37-93). -/
structure GAState where
  goal_state : String
  current_state : String
  current_progress : String
  messages : List Message
  backwards_steps : List GStep
  forward_plan : List GStep
  completed_steps : List GStep
  current_step_index : Nat
  plan_ready : Bool
  available_tools : List BaseTool

/-- Modelled from the spec: the prompt template constants of
app/prompt/generic_agent.py (SYSTEM_PROMPT, PLANNING_TEMPLATE,
TOOL_ERROR_TEMPLATE, ...) are imported by app/agent/generic_agent.py but the
prompt module itself is not among the sources; §1 of the spec places prompt
formatting out of scope.  No claim depends on the template text, only on the
fact that formatting it yields some string appended as one message, so a
template application is modelled as an executable string builder over the
same format arguments the source passes. -/
def PLANNING_TEMPLATE_format (goal current_state backwards_analysis tools_required : String) :
    String :=
  "PLANNING: " ++ goal ++ " | " ++ current_state ++ " | " ++ backwards_analysis ++
    " | " ++ tools_required

/-- Modelled from the spec: TOOL_ERROR_TEMPLATE application, see
PLANNING_TEMPLATE_format. -/
def TOOL_ERROR_TEMPLATE_format (tool_name operation error : String) : String :=
  "TOOL ERROR: " ++ tool_name ++ " | " ++ operation ++ " | " ++ error

/-- Numbered listing used by _organize_plan for the backwards analysis:
the Python is a join over enumerate with one "i+1. description" line per
step. -/
def numberedList (items : List String) : String :=
  String.intercalate "\n"
    (((List.range items.length).zip items).map (fun p => toString (p.1 + 1) ++ ". " ++ p.2))

/-- GenericAgent._organize_plan from app/agent/generic_agent.py (lines
429-485): on a nonempty backwards chain, append the formatted planning
prompt, delegate once to the reasoning collaborator (`api`; an exception in
the OpenAI call is the `.error` case, which logs a system message and
returns early), append the collaborator answer, then set
forward_plan := reverse(backwards_steps), mark the plan ready and update the
progress text.  An empty backwards chain returns the state unchanged. -/
def GenericAgent.organize_plan (s : GAState) (api : Except String String) : GAState :=
  if s.backwards_steps.isEmpty then s
  else
    let planning_prompt := PLANNING_TEMPLATE_format s.goal_state s.current_state
      (numberedList (s.backwards_steps.map (fun st => st.description)))
      (String.intercalate ", " (s.available_tools.map (fun t => t.name)))
    let s := { s with messages := s.messages ++ [Message.user_message planning_prompt] }
    match api with
    | .error e =>
      { s with messages := s.messages ++ [Message.system_message ("Error during planning: " ++ e)] }
    | .ok planning_result =>
      let s := { s with messages := s.messages ++ [Message.assistant_message planning_result] }
      let s := { s with forward_plan := s.backwards_steps.reverse, plan_ready := true }
      { s with current_progress :=
          "Plan created with " ++ toString s.forward_plan.length ++ " steps." }

/-- Step dictionary of the enhanced_devin GenericAgent
(enhanced_devin/core/generic_agent.py _work_backwards, lines 224-234). -/
structure EStep where
  id : String
  description : String
  expected_outcome : String
  tool : Option String
  parameters : List (String × String)
deriving Repr, DecidableEq

/-- GenericAgent._refine_plan from enhanced_devin/core/generic_agent.py
(lines 244-257): returns the plan unchanged. -/
def EnhancedGenericAgent.refine_plan (plan : List EStep) : List EStep := plan

/-- GenericAgent.plan from enhanced_devin/core/generic_agent.py (lines
111-136): reverse the recorded backward steps into a forward execution plan,
then refine it.  The backward chain itself (_define_goal_state followed by
_work_backwards) is produced before the reversal; it is passed here as the
already-recorded list of backward steps. -/
def EnhancedGenericAgent.plan (backwards_steps : List EStep) : List EStep :=
  EnhancedGenericAgent.refine_plan backwards_steps.reverse

/-- Result of _extract_tool_from_response (app/agent/generic_agent.py lines
233-280): the name of the matched registered tool together with the parsed
arguments.  The extraction itself is free-text and JSON parsing of model
output, whose outcome act() only branches on; it enters the model as an
oracle value so that the act() theorems hold for every possible extraction
result. -/
structure ToolInfo where
  toolName : String
  args : List (String × String)

/-- The externally produced outcomes one GenericAgent.act call can observe:
the extraction result on the last assistant message, the tool.run outcome
(exception text in the error case), and the OpenAI step-execution outcome. -/
structure GActEnv where
  tool_info : Option ToolInfo
  tool_outcome : Except String String
  api_outcome : Except String String

/-- Python repr of a kwargs dict, used only as an argument to the
(spec-modelled) TOOL_ERROR_TEMPLATE. -/
def pyDictRepr (args : List (String × String)) : String :=
  "\x7b" ++ String.intercalate ", " (args.map (fun p => p.1 ++ ": " ++ p.2)) ++ "\x7d"

/-- Tool branch of GenericAgent.act (app/agent/generic_agent.py lines
328-381): on tool.run success append the result as a system message, update
the progress text and, when a ready plan has a current step, record
tool/args/result on that step (the Python step dict is mutated in place, so
the entry inside forward_plan is updated too), append it to
completed_steps, and advance the cursor; on a tool.run exception append the
formatted error and return the error text. -/
def GenericAgent.act_tool_branch (ti : ToolInfo) (outcome : Except String String)
    (s : GAState) : GAState × String :=
  match outcome with
  | .ok result =>
    let s1 := { s with
      messages := s.messages ++ [Message.system_message ("Tool result: " ++ result)],
      current_progress := "Executed tool: " ++ ti.toolName }
    if s1.plan_ready = true ∧ s1.current_step_index < s1.forward_plan.length then
      let step := s1.forward_plan.getD s1.current_step_index ⟨"", none, none, none⟩
      let step := { step with tool_used := some ti.toolName, tool_args := some ti.args,
                              result := some result }
      let s2 := { s1 with
        forward_plan := s1.forward_plan.set s1.current_step_index step,
        completed_steps := s1.completed_steps ++ [step],
        current_step_index := s1.current_step_index + 1 }
      ({ s2 with current_progress := "Completed step " ++ toString s2.current_step_index ++
          "/" ++ toString s2.forward_plan.length }, result)
    else (s1, result)
  | .error e =>
    let error_message := "Error executing tool " ++ sq ++ ti.toolName ++ sq ++ ": " ++ e
    let formatted_error := TOOL_ERROR_TEMPLATE_format ti.toolName (pyDictRepr ti.args) e
    ({ s with messages := s.messages ++ [Message.system_message formatted_error] },
     error_message)

/-- Plan-step branch of GenericAgent.act (app/agent/generic_agent.py lines
383-427): with a ready plan and a pending step, delegate execution to the
reasoning collaborator; on failure append the error and return it, on
success append the answer as an assistant message, record it as the step
result (mutating the step in place), append the step to completed_steps and
advance the cursor.  Without a pending step, return "No action taken.". -/
def GenericAgent.act_plan_branch (api : Except String String) (s : GAState) :
    GAState × String :=
  if s.plan_ready = true ∧ s.current_step_index < s.forward_plan.length then
    match api with
    | .error e =>
      ({ s with messages := s.messages ++
          [Message.system_message ("Error executing step: " ++ e)] },
       "Error executing step: " ++ e)
    | .ok execution_result =>
      let s1 := { s with messages := s.messages ++ [Message.assistant_message execution_result] }
      let step := s1.forward_plan.getD s1.current_step_index ⟨"", none, none, none⟩
      let step := { step with result := some execution_result }
      let s2 := { s1 with
        forward_plan := s1.forward_plan.set s1.current_step_index step,
        completed_steps := s1.completed_steps ++ [step],
        current_step_index := s1.current_step_index + 1 }
      ({ s2 with current_progress := "Completed step " ++ toString s2.current_step_index ++
          "/" ++ toString s2.forward_plan.length }, execution_result)
  else (s, "No action taken.")

/-- GenericAgent.act from app/agent/generic_agent.py (lines 318-427): when
the last message is from the assistant and a tool was extracted from it, run
the tool branch; otherwise fall through to the plan-step branch. -/
def GenericAgent.act (env : GActEnv) (s : GAState) : GAState × String :=
  match (match s.messages.getLast? with
         | some m => if m.role = "assistant" then env.tool_info else none
         | none => none) with
  | some ti => GenericAgent.act_tool_branch ti env.tool_outcome s
  | none => GenericAgent.act_plan_branch env.api_outcome s

/-- LangChain BaseMessage variants used by app/agent/langchain_agent.py:
SystemMessage, HumanMessage and AIMessage, each carrying a content string. -/
inductive BMessage where
  | system (content : String)
  | human (content : String)
  | ai (content : String)
deriving Repr, DecidableEq

/-- ConversationState from app/agent/langchain_agent.py (lines 36-51): the
shared history, the current speaker, and the per-agent thinking log
(a Python dict from agent name to list of thoughts, modelled as an
insertion-ordered association list). -/
structure ConversationState where
  history : List BMessage
  current_speaker : String
  thinking_process : List (String × List String)
deriving Repr, DecidableEq

/-- ConversationState.add_message (lines 43-45): append to the history. -/
def ConversationState.add_message (st : ConversationState) (m : BMessage) : ConversationState :=
  { st with history := st.history ++ [m] }

/-- ConversationState.add_thinking (lines 47-51): append to the agent's
thought list, creating the entry on first use. -/
def ConversationState.add_thinking (st : ConversationState) (agent_name thought : String) :
    ConversationState :=
  { st with thinking_process :=
      if st.thinking_process.any (fun p => p.1 == agent_name) then
        st.thinking_process.map (fun p =>
          if p.1 = agent_name then (p.1, p.2 ++ [thought]) else p)
      else st.thinking_process ++ [(agent_name, [thought])] }

/-- LangChainAgent.receive_message from app/agent/langchain_agent.py (lines
213-227): append the message to the (shared) conversation history as a
HumanMessage when the sender is "human" and as an AIMessage otherwise, then
set the current speaker to the sender. -/
def LangChainAgent.receive_message (st : ConversationState) (message sender : String) :
    ConversationState :=
  let st := st.add_message
    (if sender == "human" then BMessage.human message else BMessage.ai message)
  { st with current_speaker := sender }

/-- The state mutation of LangChainAgent.respond (lines 182-211): append the
generated response to the (shared) history as an AIMessage and record the
agent as current speaker.  The response text itself comes from the LLM chain
and enters as a parameter. -/
def LangChainAgent.respond (st : ConversationState) (name response : String) :
    ConversationState :=
  let st := st.add_message (BMessage.ai response)
  { st with current_speaker := name }

/-- Next-speaker selection in MultiAgentConversation.start_conversation
(lines 315-319): the participant at (index_of(current) + 1) mod N in
registration order. -/
def nextSpeaker (names : List String) (current : String) : String :=
  names.getD ((names.findIdx (fun n => n == current) + 1) % names.length) current

/-- The broadcast at the end of a turn (lines 310-313): every participant
other than the speaker receives the new message; because every participant
aliases the one shared ConversationState, each receive_message call appends
to the same history. -/
def MultiAgentConversation.broadcast (names : List String) (current response : String)
    (st : ConversationState) : ConversationState :=
  names.foldl
    (fun acc n => if n ≠ current then LangChainAgent.receive_message acc response current else acc)
    st

/-- One turn of start_conversation (lines 300-313): the speaker thinks
(recording the thought privately), responds into the shared history, then
the response is broadcast to all other participants. -/
def MultiAgentConversation.doTurn (names : List String) (current thought response : String)
    (st : ConversationState) : ConversationState :=
  let st := st.add_thinking current thought
  let st := LangChainAgent.respond st current response
  MultiAgentConversation.broadcast names current response st

/-- The turn loop of start_conversation (lines 299-319), iterating over
`range(max_turns)` exactly; the `think`/`resp` oracles give the LLM texts of
each turn.  Returns the final shared state and the conversation log. -/
def MultiAgentConversation.convLoop (names : List String) (think resp : Nat → String) :
    List Nat → String → ConversationState → List (String × String) →
      ConversationState × List (String × String)
  | [], _, st, log => (st, log)
  | turn :: ts, current, st, log =>
    let response := resp turn
    let st := MultiAgentConversation.doTurn names current (think turn) response st
    MultiAgentConversation.convLoop names think resp ts (nextSpeaker names current) st
      (log ++ [(current, response)])

/-- MultiAgentConversation.start_conversation from
app/agent/langchain_agent.py (lines 279-321): record the initial human
message, pick the first registered participant (`next(iter(agents.keys()))`,
which on an empty dict raises StopIteration, modelled as `none`), and run
the round-robin loop for exactly max_turns turns. -/
def MultiAgentConversation.start_conversation (names : List String) (think resp : Nat → String)
    (initial : String) (max_turns : Nat) :
    Option (ConversationState × List (String × String)) :=
  match names with
  | [] => none
  | first :: _ =>
    let st0 : ConversationState := { history := [], current_speaker := "", thinking_process := [] }
    let st0 := st0.add_message (BMessage.human initial)
    some (MultiAgentConversation.convLoop names think resp (List.range max_turns) first st0
      [("human", initial)])

/-- ToolCall record from app/agent/toolcall.py (lines 19-26). -/
structure ToolCall where
  tool_name : String
  tool_args : List (String × String)
deriving Repr, DecidableEq

/-- State of a ToolCallAgent (app/agent/toolcall.py lines 39-78): message
history, pending tool calls, the special tool names, and the registered
tools. -/
structure TCState where
  messages : List Message
  tool_calls : List ToolCall
  special_tool_names : List String
  available_tools : List BaseTool

/-- ToolCallAgent.update_memory from app/agent/toolcall.py (lines 80-88):
append a Message with the given role, with no role validation. -/
def ToolCallAgent.update_memory (s : TCState) (role content : String) : TCState :=
  { s with messages := s.messages ++ [⟨role, content⟩] }

/-- Python dict .get(key, default) over a kwargs association list. -/
def lookupArg (args : List (String × String)) (k : String) : Option String :=
  (args.find? (fun p => p.1 == k)).map (fun p => p.2)

/-- ToolCallAgent.act from app/agent/toolcall.py (lines 101-133): pop the
next pending tool call; a special "terminate" call short-circuits; otherwise
resolve the tool in the collection (an absent tool yields the textual
not-found error) and call `tool.run(**tool_args)` inside try/except.
BaseTool (app/tool/base.py) does not define `run` - only `execute` - so on
a tool without a `run` attribute the call raises AttributeError, which the
except branch converts to the "Error executing tool" text; a defined `run`
either returns the result verbatim or raises, which is likewise caught. -/
def ToolCallAgent.act (s : TCState) : TCState × String :=
  match s.tool_calls with
  | [] => (s, "No actions to take.")
  | tc :: rest =>
    let s := { s with tool_calls := rest }
    if s.special_tool_names.contains tc.tool_name ∧ tc.tool_name = "terminate" then
      (s, "Agent execution terminated: " ++ ((lookupArg tc.tool_args "reason").getD "Task completed"))
    else
      match ToolCollection.get_tool s.available_tools tc.tool_name with
      | none => (s, "Error: Tool " ++ sq ++ tc.tool_name ++ sq ++ " not found.")
      | some tool =>
        match tool.runAttr with
        | none =>
          (s, "Error executing tool " ++ sq ++ tc.tool_name ++ sq ++ ": " ++ sq ++
            tool.pyClassName ++ sq ++ " object has no attribute " ++ sq ++ "run" ++ sq)
        | some f =>
          match f tc.tool_args with
          | .ok result => (s, result)
          | .error e => (s, "Error executing tool " ++ sq ++ tc.tool_name ++ sq ++ ": " ++ e)

/-- Python substring test `pat in s`, over character lists: true iff pat is
a prefix of some suffix of s (and always true for the empty pattern). -/
def strInAux (pat : List Char) : List Char → Bool
  | [] => pat.isEmpty
  | c :: t => pat.isPrefixOf (c :: t) || strInAux pat t

/-- Python substring operator `pat in s`. -/
def strIn (pat s : String) : Bool := strInAux pat.data s.data

/-- The while loop of ToolCallAgent.run (app/agent/toolcall.py lines
148-168), with think() abstracted as a state transformer oracle (the
subclass implements it).  Fuel counts the remaining permitted steps_taken
increments; reaching zero is the step-cap exhaustion case.  Returns the
state, the last act result, and whether the cap was exhausted. -/
def ToolCallAgent.runLoop (think : TCState → Bool × TCState) :
    Nat → TCState → String → TCState × String × Bool
  | 0, s, result => (s, result, true)
  | fuel + 1, s, result =>
    let p := think s
    if p.1 = false then (p.2, result, false)
    else
      let q := ToolCallAgent.act p.2
      let s2 := ToolCallAgent.update_memory q.1 "system" ("Action result: " ++ q.2)
      if strIn "Agent execution terminated" q.2 then (s2, q.2, false)
      else ToolCallAgent.runLoop think fuel s2 q.2

/-- ToolCallAgent.run from app/agent/toolcall.py (lines 135-174): record the
request, loop think/act up to max_steps times, and on cap exhaustion wrap
the last result in the "Reached maximum steps" text. -/
def ToolCallAgent.run (think : TCState → Bool × TCState) (max_steps : Nat)
    (request : Option String) (s : TCState) : TCState × String :=
  let s := match request with
    | some r => ToolCallAgent.update_memory s "user" r
    | none => s
  match ToolCallAgent.runLoop think max_steps s "" with
  | (s, result, exhausted) =>
    if exhausted then
      (s, "Reached maximum steps (" ++ toString max_steps ++ "). Last result: " ++ result)
    else (s, result)

/-- An echo tool written to the BaseTool contract of app/tool/base.py: it
implements the `execute` entry point (returning its text) and, like
BaseTool itself and every tool in app/tool except canva_api, defines no
`run` attribute. -/
def echoTool : BaseTool :=
  { name := "echo", pyClassName := "EchoTool", execute := fun _ => .ok "hi" }

/-- ToolCallAgent state with the echo tool registered and one pending call
to it with args x := hi. -/
def c6State : TCState :=
  { messages := [], tool_calls := [⟨"echo", [("x", "hi")]⟩],
    special_tool_names := ["terminate"], available_tools := [echoTool] }

/-- Initial empty ToolCallAgent state used in the C7 run demonstration. -/
def tc0 : TCState :=
  { messages := [], tool_calls := [], special_tool_names := ["terminate"],
    available_tools := [] }

/-- Concrete think() oracle: queue one call to the unregistered tool "nope"
on each of the first two turns (observed via the message count), then stop. -/
def think0 : TCState → Bool × TCState := fun s =>
  if s.messages.length < 3 then (true, { s with tool_calls := [⟨"nope", []⟩] }) else (false, s)

/-- Tool record of the enhanced_devin engine as seen by
_get_tool_by_name: only the name takes part in resolution; the run call
outcome enters execute_step as an oracle. -/
structure ETool where
  name : String
deriving Repr, DecidableEq

/-- GenericAgent._get_tool_by_name from enhanced_devin/core/generic_agent.py
(lines 274-287): first exact, case-sensitive name match. -/
def EnhancedGenericAgent.get_tool_by_name (tools : List ETool) (tool_name : String) :
    Option ETool :=
  tools.find? (fun t => t.name == tool_name)

/-- Result dictionary of execute_step (enhanced_devin/core/generic_agent.py
lines 138-180); absent dict keys are `none`. -/
structure EStepResult where
  status : String
  tool : Option String
  rtype : Option String
  description : Option String
  result : Option String
  error : Option String
deriving Repr, DecidableEq

/-- AgentStatus from enhanced_devin/core/base_agent.py (lines 15-22). -/
inductive AgentStatus where
  | idle | planning | executing | waiting | completed | failed
deriving Repr, DecidableEq

/-- GenericAgent.execute_step from enhanced_devin/core/generic_agent.py
(lines 138-180): with a truthy tool name, resolve it (absent yields the
failed "not found" result); on resolution call the tool, converting an
exception (`invoke` error case) into a failed result; without a tool this
is a reasoning step that succeeds with the expected outcome.  The function
is total: it never raises. -/
def EnhancedGenericAgent.execute_step (tools : List ETool)
    (invoke : String → List (String × String) → Except String String) (step : EStep) :
    EStepResult :=
  match step.tool with
  | some toolName =>
    if toolName = "" then
      { status := "success", tool := none, rtype := some "reasoning",
        description := some step.description, result := some step.expected_outcome,
        error := none }
    else
      match EnhancedGenericAgent.get_tool_by_name tools toolName with
      | some _ =>
        match invoke toolName step.parameters with
        | .ok r =>
          { status := "success", tool := some toolName, rtype := none, description := none,
            result := some r, error := none }
        | .error e =>
          { status := "failed", tool := some toolName, rtype := none, description := none,
            result := none, error := some e }
      | none =>
        { status := "failed", tool := none, rtype := none, description := none,
          result := none,
          error := some ("Tool " ++ sq ++ toolName ++ sq ++ " not found") }
  | none =>
    { status := "success", tool := none, rtype := some "reasoning",
      description := some step.description, result := some step.expected_outcome,
      error := none }

/-- GenericAgent._attempt_recovery from enhanced_devin/core/generic_agent.py
(lines 259-272): the single recovery attempt always reports failure. -/
def EnhancedGenericAgent.attempt_recovery (_failed_step : EStep)
    (_failure_result : EStepResult) : Bool := false

/-- Execution-tracking slice of the enhanced_devin BaseAgent state
(enhanced_devin/core/base_agent.py lines 58-74), restricted to the fields
the run loop reads or writes. -/
structure EState where
  status : AgentStatus
  step_count : Nat
  steps_history : List (EStep × EStepResult)
  execution_results : List EStepResult
  errors : List String
deriving Repr, DecidableEq

/-- BaseAgent._track_step from enhanced_devin/core/base_agent.py (lines
169-185): bump the step count and append to the history. -/
def EnhancedGenericAgent.track_step (st : EState) (step : EStep) (result : EStepResult) :
    EState :=
  { st with step_count := st.step_count + 1,
            steps_history := st.steps_history ++ [(step, result)] }

/-- The step loop of GenericAgent.run (enhanced_devin/core/generic_agent.py
lines 52-81): for each plan step, stop as FAILED when the step cap is
reached; otherwise execute the step, track it, append its result, and on a
failed result log the error and attempt the single recovery, transitioning
the whole run to FAILED and halting when recovery fails (as it always
does). -/
def EnhancedGenericAgent.runSteps (tools : List ETool)
    (invoke : String → List (String × String) → Except String String) (max_steps : Nat) :
    List EStep → EState → EState
  | [], st => st
  | step :: rest, st =>
    if max_steps ≤ st.step_count then
      let msg := "Exceeded maximum number of steps (" ++ toString max_steps ++ ")"
      { st with errors := st.errors ++ [msg], status := .failed }
    else
      let result := EnhancedGenericAgent.execute_step tools invoke step
      let st := EnhancedGenericAgent.track_step st step result
      let st := { st with execution_results := st.execution_results ++ [result] }
      if result.status = "failed" then
        let st := { st with errors := st.errors ++
            ["Step execution failed: " ++ (result.error.getD "Unknown error")] }
        if EnhancedGenericAgent.attempt_recovery step result then
          EnhancedGenericAgent.runSteps tools invoke max_steps rest st
        else { st with status := .failed }
      else EnhancedGenericAgent.runSteps tools invoke max_steps rest st

/-- GenericAgent.run from enhanced_devin/core/generic_agent.py (lines
23-109), execution phase: start from a fresh EXECUTING state, run the plan
steps, then mark the run COMPLETED unless it FAILED. -/
def EnhancedGenericAgent.run (tools : List ETool)
    (invoke : String → List (String × String) → Except String String) (max_steps : Nat)
    (plan : List EStep) : EState :=
  let st : EState := { status := .executing, step_count := 0, steps_history := [],
                       execution_results := [], errors := [] }
  let st := EnhancedGenericAgent.runSteps tools invoke max_steps plan st
  if st.status ≠ .failed then { st with status := .completed } else st

/-- Plan step naming the unregistered tool "nope". -/
def nopeStep : EStep :=
  { id := "s1", description := "use nope", expected_outcome := "x",
    tool := some "nope", parameters := [] }

/-- Tool-free reasoning step that would follow nopeStep. -/
def reasonStep : EStep :=
  { id := "s2", description := "reason", expected_outcome := "done",
    tool := none, parameters := [] }

/-- Tool-run oracle that always succeeds (never consulted for an absent
tool). -/
def invoke0 : String → List (String × String) → Except String String := fun _ _ => .ok "ok"

/-- Tool-run oracle that raises exactly for tool t2. -/
def invokeFail2 : String → List (String × String) → Except String String :=
  fun n _ => if n == "t2" then .error "boom" else .ok "ok"

/-- First step of the three-step failure scenario: uses tool t1, succeeds. -/
def es1 : EStep :=
  { id := "s1", description := "one", expected_outcome := "o1",
    tool := some "t1", parameters := [] }

/-- Second step of the three-step failure scenario: uses tool t2, whose
invocation raises. -/
def es2 : EStep :=
  { id := "s2", description := "two", expected_outcome := "o2",
    tool := some "t2", parameters := [] }

/-- Third step of the three-step failure scenario: never reached. -/
def es3 : EStep :=
  { id := "s3", description := "three", expected_outcome := "o3",
    tool := none, parameters := [] }

/-- Registering a key in the modelled Python dict and reading the same key
back yields the value just stored (dict assignment overwrites). -/
theorem ToolRegistry.get_register_self {α : Type} (reg : List (String × α)) (k : String) (v : α) :
    ToolRegistry.get_tool (ToolRegistry.register_tool reg k v) k = some v := by
  induction reg with
  | nil => simp [ToolRegistry.register_tool, ToolRegistry.get_tool]
  | cons p reg ih =>
    by_cases hp : p.1 = k
    · simp [ToolRegistry.register_tool, ToolRegistry.get_tool, hp]
    · simpa [ToolRegistry.register_tool, ToolRegistry.get_tool, hp] using ih

/-- Registering a key in the modelled Python dict leaves every other key
unchanged. -/
theorem ToolRegistry.get_register_other {α : Type} (reg : List (String × α)) (k : String)
    (v : α) (k2 : String) (h : k2 ≠ k) :
    ToolRegistry.get_tool (ToolRegistry.register_tool reg k v) k2 =
      ToolRegistry.get_tool reg k2 := by
  induction reg with
  | nil => simp [ToolRegistry.register_tool, ToolRegistry.get_tool, Ne.symm h]
  | cons p reg ih =>
    by_cases hp : p.1 = k
    · have hp2 : p.1 ≠ k2 := by rw [hp]; exact Ne.symm h
      simp [ToolRegistry.register_tool, ToolRegistry.get_tool, hp, Ne.symm h, hp2]
    · by_cases hq : p.1 = k2
      · simp [ToolRegistry.register_tool, ToolRegistry.get_tool, hp, hq, h]
      · simpa [ToolRegistry.register_tool, ToolRegistry.get_tool, hp, hq] using ih

/-- C10: for roles outside user/assistant/system, BaseAgent.update_memory
raises ValueError and appends nothing; for each of the three valid roles it
appends exactly one Message with that role and content. -/
theorem C10_update_memory (memory : List Message) (role content : String) :
    (role ≠ "user" → role ≠ "assistant" → role ≠ "system" →
      BaseAgent.update_memory memory role content = .error ("Invalid role: " ++ role)) ∧
    (role = "user" ∨ role = "assistant" ∨ role = "system" →
      BaseAgent.update_memory memory role content = .ok (memory ++ [⟨role, content⟩])) := by
  constructor
  · intro h1 h2 h3
    simp [BaseAgent.update_memory, h1, h2, h3]
  · rintro (rfl | rfl | rfl) <;>
      simp [BaseAgent.update_memory, Message.user_message,
        Message.assistant_message, Message.system_message]

/-- Witness for C10 at the concrete inputs role "moderator" (invalid) and
role "user" (valid). -/
theorem C10_update_memory_witness :
    BaseAgent.update_memory [] "moderator" "x" = .error ("Invalid role: " ++ "moderator") ∧
    BaseAgent.update_memory [] "user" "x" = .ok [⟨"user", "x"⟩] :=
  ⟨(C10_update_memory [] "moderator" "x").1 (by decide) (by decide) (by decide),
   (C10_update_memory [] "user" "x").2 (Or.inl rfl)⟩

/-- C3 counterexample: register a tool named "Echo" and then a tool named
"echo" in a ToolCollection; looking up "echo" returns the tool registered
FIRST (name "Echo"), not the one registered last, refuting the last-wins
half of the claim.  Moreover ToolRegistry lookup is case-SENSITIVE: after
registering key "echo" the lookup of "Echo" is absent, refuting the
case-insensitive half for that registry. -/
theorem C3_counterexample :
    (ToolCollection.get_tool
        (ToolCollection.add_tool (ToolCollection.add_tool [] echoUpper) echoLower)
        "echo").map (fun t => t.name) = some "Echo" ∧
    ToolRegistry.get_tool (ToolRegistry.register_tool ([] : List (String × Nat)) "echo" 1)
        "Echo" = none := by
  constructor <;> decide

/-- C3 amended: ToolCollection lookup is a case-insensitive exact-name match
(a tool is returned iff some registered name matches ignoring case, and any
returned tool matches ignoring case), but among several case-insensitive
duplicates the FIRST registered wins; ToolRegistry lookup is case-sensitive
exact match, where re-registering the same exact key overwrites (last wins)
and leaves all other keys unchanged. -/
theorem C3_lookup_amended {α : Type} (ts : List BaseTool) (t0 : BaseTool) (n : String)
    (reg : List (String × α)) (k : String) (v : α) :
    (pyLower t0.name = pyLower n → ToolCollection.get_tool (t0 :: ts) n = some t0) ∧
    (ToolCollection.get_tool ts n = none ↔ ∀ t ∈ ts, pyLower t.name ≠ pyLower n) ∧
    (∀ t, ToolCollection.get_tool ts n = some t → t ∈ ts ∧ pyLower t.name = pyLower n) ∧
    ToolRegistry.get_tool (ToolRegistry.register_tool reg k v) k = some v ∧
    (∀ k2, k2 ≠ k → ToolRegistry.get_tool (ToolRegistry.register_tool reg k v) k2 =
      ToolRegistry.get_tool reg k2) := by
  refine ⟨?_, ?_, ?_, ToolRegistry.get_register_self reg k v,
    fun k2 h => ToolRegistry.get_register_other reg k v k2 h⟩
  · intro h
    simp [ToolCollection.get_tool, List.find?_cons, beq_iff_eq.mpr h]
  · simp [ToolCollection.get_tool, List.find?_eq_none]
  · intro t ht
    exact ⟨List.mem_of_find?_eq_some ht,
      by simpa using List.find?_some ht⟩

/-- Witness for C3 amended: concrete instances discharging each hypothesis;
looking up "ECHO" finds the head tool "Echo" first, registering key "echo"
twice in the registry keeps the last value, other keys are untouched. -/
theorem C3_lookup_amended_witness :
    ToolCollection.get_tool [echoUpper, echoLower] "ECHO" = some echoUpper ∧
    ToolRegistry.get_tool
      (ToolRegistry.register_tool (ToolRegistry.register_tool ([] : List (String × Nat))
        "echo" 1) "echo" 2) "echo" = some 2 ∧
    ToolRegistry.get_tool (ToolRegistry.register_tool ([] : List (String × Nat)) "echo" 1)
      "bash" = ToolRegistry.get_tool ([] : List (String × Nat)) "bash" :=
  ⟨(C3_lookup_amended [echoLower] echoUpper "ECHO" ([] : List (String × Nat)) "x" 0).1
      (by decide),
   (C3_lookup_amended ([] : List BaseTool) echoUpper "ECHO"
      (ToolRegistry.register_tool ([] : List (String × Nat)) "echo" 1) "echo" 2).2.2.2.1,
   (C3_lookup_amended ([] : List BaseTool) echoUpper "ECHO"
      ([] : List (String × Nat)) "echo" 1).2.2.2.2 "bash" (by decide)⟩

/-- C9: whenever an act() result starts with the reserved marker
"TERMINATING:", the BaseAgent.run loop exits immediately, leaving the rest
of the think/act script unconsumed (no further think() or act() call), and
returns the remainder of the result after the marker, whitespace-stripped,
as the successful outcome (the ordinary return path, not an error). -/
theorem C9_terminate_exits_run (r : String) (rest : List (Bool × String))
    (h : pyStartsWith r "TERMINATING:" = true) :
    BaseAgent.runLoop ((true, r) :: rest) =
      some (pyStrip (pyDrop r ("TERMINATING:".length)), rest) := by
  simp [BaseAgent.runLoop, h]

/-- Witness for C9: a Terminate.execute result with message "done" followed
by a further pending turn; the loop returns "done" and never reaches the
later turn. -/
theorem C9_terminate_exits_run_witness :
    BaseAgent.runLoop [(true, Terminate.execute (some "done")), (true, "later")] =
      some ("done", [(true, "later")]) := by
  have h := C9_terminate_exits_run (Terminate.execute (some "done")) [(true, "later")]
    (by decide)
  rw [h]
  decide

/-- C1: for every nonempty list of backward steps recorded during planning,
_organize_plan (with the collaborator call succeeding) sets forward_plan to
exactly the reverse of backwards_steps, with equal length, and marks the
plan ready; likewise the enhanced_devin plan() returns exactly the reversed
backward chain, of equal length, unchanged through refinement. -/
theorem C1_plan_reversal (s : GAState) (resp : String) (h : s.backwards_steps ≠ []) :
    ((GenericAgent.organize_plan s (.ok resp)).forward_plan = s.backwards_steps.reverse ∧
     (GenericAgent.organize_plan s (.ok resp)).forward_plan.length = s.backwards_steps.length ∧
     (GenericAgent.organize_plan s (.ok resp)).plan_ready = true) ∧
    (∀ bs : List EStep, EnhancedGenericAgent.plan bs = bs.reverse ∧
      (EnhancedGenericAgent.plan bs).length = bs.length) := by
  have hne : s.backwards_steps.isEmpty = false := by
    cases hbs : s.backwards_steps with
    | nil => exact absurd hbs h
    | cons a l => rfl
  refine ⟨?_, fun bs => ⟨rfl, by simp [EnhancedGenericAgent.plan, EnhancedGenericAgent.refine_plan]⟩⟩
  simp [GenericAgent.organize_plan, hne]

/-- Witness for C1: a backward chain recorded as do C, do B, do A is
organized into the forward plan do A, do B, do C. -/
theorem C1_plan_reversal_witness :
    (GenericAgent.organize_plan
      { goal_state := "X", current_state := "Initial state",
        current_progress := "No progress yet. Planning phase.", messages := [],
        backwards_steps := [⟨"do C", none, none, none⟩, ⟨"do B", none, none, none⟩,
          ⟨"do A", none, none, none⟩],
        forward_plan := [], completed_steps := [], current_step_index := 0,
        plan_ready := false, available_tools := [] } (.ok "ok")).forward_plan =
      [⟨"do A", none, none, none⟩, ⟨"do B", none, none, none⟩, ⟨"do C", none, none, none⟩] := by
  have h := (C1_plan_reversal
    { goal_state := "X", current_state := "Initial state",
      current_progress := "No progress yet. Planning phase.", messages := [],
      backwards_steps := [⟨"do C", none, none, none⟩, ⟨"do B", none, none, none⟩,
        ⟨"do A", none, none, none⟩],
      forward_plan := [], completed_steps := [], current_step_index := 0,
      plan_ready := false, available_tools := [] } "ok" (by decide)).1.1
  rw [h]; rfl

/-- Cursor behaviour of the tool branch of act: the cursor never decreases,
the plan keeps its length, and the cursor advances by one exactly when a
pending step exists and is appended to completed_steps. -/
theorem act_tool_branch_cursor (ti : ToolInfo) (outcome : Except String String) (s : GAState) :
    s.current_step_index ≤ ((GenericAgent.act_tool_branch ti outcome s).1).current_step_index ∧
    ((GenericAgent.act_tool_branch ti outcome s).1).forward_plan.length =
      s.forward_plan.length ∧
    (((GenericAgent.act_tool_branch ti outcome s).1).current_step_index =
        s.current_step_index ∧
      ((GenericAgent.act_tool_branch ti outcome s).1).completed_steps = s.completed_steps ∨
     ((GenericAgent.act_tool_branch ti outcome s).1).current_step_index =
        s.current_step_index + 1 ∧
      s.current_step_index < s.forward_plan.length ∧
      ∃ st, ((GenericAgent.act_tool_branch ti outcome s).1).completed_steps =
        s.completed_steps ++ [st]) := by
  cases outcome with
  | ok result =>
    simp only [GenericAgent.act_tool_branch]
    split
    · rename_i h
      exact ⟨Nat.le_succ _, by simp, Or.inr ⟨rfl, h.2, ⟨_, rfl⟩⟩⟩
    · exact ⟨Nat.le_refl _, rfl, Or.inl ⟨rfl, rfl⟩⟩
  | error e => exact ⟨Nat.le_refl _, rfl, Or.inl ⟨rfl, rfl⟩⟩

/-- Cursor behaviour of the plan-step branch of act: same shape as the tool
branch. -/
theorem act_plan_branch_cursor (api : Except String String) (s : GAState) :
    s.current_step_index ≤ ((GenericAgent.act_plan_branch api s).1).current_step_index ∧
    ((GenericAgent.act_plan_branch api s).1).forward_plan.length = s.forward_plan.length ∧
    (((GenericAgent.act_plan_branch api s).1).current_step_index = s.current_step_index ∧
      ((GenericAgent.act_plan_branch api s).1).completed_steps = s.completed_steps ∨
     ((GenericAgent.act_plan_branch api s).1).current_step_index = s.current_step_index + 1 ∧
      s.current_step_index < s.forward_plan.length ∧
      ∃ st, ((GenericAgent.act_plan_branch api s).1).completed_steps =
        s.completed_steps ++ [st]) := by
  simp only [GenericAgent.act_plan_branch]
  split
  · rename_i h
    cases api with
    | error e => exact ⟨Nat.le_refl _, rfl, Or.inl ⟨rfl, rfl⟩⟩
    | ok execution_result =>
      exact ⟨Nat.le_succ _, by simp, Or.inr ⟨rfl, h.2, ⟨_, rfl⟩⟩⟩
  · exact ⟨Nat.le_refl _, rfl, Or.inl ⟨rfl, rfl⟩⟩

/-- C5: across any act() call of the Working-Backwards agent,
current_step_index never decreases, it increases (by exactly one) only when
the current step exists, is resolved and is appended to completed_steps,
and the invariant current_step_index ≤ len(forward_plan) is preserved (the
lower bound 0 ≤ current_step_index holds by the index being a natural
number). -/
theorem C5_act_cursor_monotone (env : GActEnv) (s : GAState) :
    s.current_step_index ≤ ((GenericAgent.act env s).1).current_step_index ∧
    ((GenericAgent.act env s).1).forward_plan.length = s.forward_plan.length ∧
    (((GenericAgent.act env s).1).current_step_index = s.current_step_index ∧
      ((GenericAgent.act env s).1).completed_steps = s.completed_steps ∨
     ((GenericAgent.act env s).1).current_step_index = s.current_step_index + 1 ∧
      s.current_step_index < s.forward_plan.length ∧
      ∃ st, ((GenericAgent.act env s).1).completed_steps = s.completed_steps ++ [st]) ∧
    (s.current_step_index ≤ s.forward_plan.length →
      ((GenericAgent.act env s).1).current_step_index ≤
        ((GenericAgent.act env s).1).forward_plan.length) := by
  have main :
      s.current_step_index ≤ ((GenericAgent.act env s).1).current_step_index ∧
      ((GenericAgent.act env s).1).forward_plan.length = s.forward_plan.length ∧
      (((GenericAgent.act env s).1).current_step_index = s.current_step_index ∧
        ((GenericAgent.act env s).1).completed_steps = s.completed_steps ∨
       ((GenericAgent.act env s).1).current_step_index = s.current_step_index + 1 ∧
        s.current_step_index < s.forward_plan.length ∧
        ∃ st, ((GenericAgent.act env s).1).completed_steps = s.completed_steps ++ [st]) := by
    unfold GenericAgent.act
    split
    · exact act_tool_branch_cursor _ env.tool_outcome s
    · exact act_plan_branch_cursor env.api_outcome s
  refine ⟨main.1, main.2.1, main.2.2, fun hle => ?_⟩
  have hlen := main.2.1
  rcases main.2.2 with ⟨h1, _⟩ | ⟨h1, hlt, _⟩ <;> omega

/-- Witness for C5 at a concrete ready plan of two steps with the cursor on
step one: after a successful tool act the cursor is 1 and stays within the
plan length. -/
theorem C5_act_cursor_monotone_witness :
    0 ≤ ((GenericAgent.act
      { tool_info := some ⟨"echo", [("x", "hi")]⟩, tool_outcome := .ok "hi",
        api_outcome := .ok "ok" }
      { goal_state := "g", current_state := "Initial state", current_progress := "p",
        messages := [Message.assistant_message "use tool: echo"],
        backwards_steps := [], forward_plan := [⟨"s1", none, none, none⟩, ⟨"s2", none, none, none⟩],
        completed_steps := [], current_step_index := 0, plan_ready := true,
        available_tools := [] }).1).current_step_index ∧
    ((GenericAgent.act
      { tool_info := some ⟨"echo", [("x", "hi")]⟩, tool_outcome := .ok "hi",
        api_outcome := .ok "ok" }
      { goal_state := "g", current_state := "Initial state", current_progress := "p",
        messages := [Message.assistant_message "use tool: echo"],
        backwards_steps := [], forward_plan := [⟨"s1", none, none, none⟩, ⟨"s2", none, none, none⟩],
        completed_steps := [], current_step_index := 0, plan_ready := true,
        available_tools := [] }).1).current_step_index ≤
    ((GenericAgent.act
      { tool_info := some ⟨"echo", [("x", "hi")]⟩, tool_outcome := .ok "hi",
        api_outcome := .ok "ok" }
      { goal_state := "g", current_state := "Initial state", current_progress := "p",
        messages := [Message.assistant_message "use tool: echo"],
        backwards_steps := [], forward_plan := [⟨"s1", none, none, none⟩, ⟨"s2", none, none, none⟩],
        completed_steps := [], current_step_index := 0, plan_ready := true,
        available_tools := [] }).1).forward_plan.length :=
  ⟨Nat.zero_le _,
   (C5_act_cursor_monotone
      { tool_info := some ⟨"echo", [("x", "hi")]⟩, tool_outcome := .ok "hi",
        api_outcome := .ok "ok" }
      { goal_state := "g", current_state := "Initial state", current_progress := "p",
        messages := [Message.assistant_message "use tool: echo"],
        backwards_steps := [], forward_plan := [⟨"s1", none, none, none⟩, ⟨"s2", none, none, none⟩],
        completed_steps := [], current_step_index := 0, plan_ready := true,
        available_tools := [] }).2.2.2 (by decide)⟩

/-- The turn loop appends exactly one log entry per turn: no early exit. -/
theorem convLoop_log_length (names : List String) (think resp : Nat → String) :
    ∀ (ts : List Nat) (current : String) (st : ConversationState)
      (log : List (String × String)),
      (MultiAgentConversation.convLoop names think resp ts current st log).2.length =
        log.length + ts.length
  | [], _, _, _ => by simp [MultiAgentConversation.convLoop]
  | t :: ts, current, st, log => by
    simp [MultiAgentConversation.convLoop,
      convLoop_log_length names think resp ts (nextSpeaker names current) _ (log ++ [(current, resp t)])]
    omega

/-- C2: for participants registered as A, B, C and max_turns = 7, whatever
the LLM texts are, the conversation log after the initial human entry is
spoken exactly by A, B, C, A, B, C, A: the first speaker is the first
registered participant and each next speaker is the participant at
(index_of(current) + 1) mod N; moreover the loop always emits exactly
max_turns turn entries, with no early exit. -/
theorem C2_round_robin (think resp : Nat → String) (initial : String) :
    (MultiAgentConversation.start_conversation ["A", "B", "C"] think resp initial 7).map
        (fun r => r.2.map Prod.fst) =
      some ["human", "A", "B", "C", "A", "B", "C", "A"] ∧
    (∀ (first : String) (others : List String) (n : Nat),
      (MultiAgentConversation.start_conversation (first :: others) think resp initial n).map
          (fun r => r.2.length) = some (n + 1)) := by
  constructor
  · rfl
  · intro first others n
    simp [MultiAgentConversation.start_conversation,
      convLoop_log_length (first :: others) think resp (List.range n) first]
    omega

/-- The broadcast appends one copy of the message per non-speaking
participant to the shared history. -/
theorem broadcast_history (names : List String) (current response : String)
    (st : ConversationState) :
    (MultiAgentConversation.broadcast names current response st).history =
      st.history ++
        List.replicate (names.countP (fun n => decide (n ≠ current)))
          (if current == "human" then BMessage.human response else BMessage.ai response) := by
  induction names generalizing st with
  | nil => simp [MultiAgentConversation.broadcast]
  | cons n ns ih =>
    by_cases h : n = current
    · have : (MultiAgentConversation.broadcast (n :: ns) current response st) =
          MultiAgentConversation.broadcast ns current response st := by
        simp [MultiAgentConversation.broadcast, h]
      rw [this, ih]
      simp [List.countP_cons, h]
    · have : (MultiAgentConversation.broadcast (n :: ns) current response st) =
          MultiAgentConversation.broadcast ns current response
            (LangChainAgent.receive_message st response current) := by
        simp [MultiAgentConversation.broadcast, h]
      rw [this, ih]
      simp [LangChainAgent.receive_message, ConversationState.add_message,
        List.countP_cons, h, List.replicate_succ]

/-- C4 counterexample: two participants A and B, one turn.  The claim says
the turn adds exactly one Message to the shared history and that the
broadcast adds no further copies; in fact the history after the turn holds
the initial human message plus TWO copies of the response, because
receive_message appends to the very same shared ConversationState. -/
theorem C4_counterexample :
    (MultiAgentConversation.start_conversation ["A", "B"] (fun _ => "t") (fun _ => "r")
        "init" 1).map (fun r => r.1.history) =
      some [BMessage.human "init", BMessage.ai "r", BMessage.ai "r"] := rfl

/-- C4 amended: each turn appends 1 + K messages to the shared history,
where K is the number of registered participants other than the speaker
(K = N - 1 for distinct names): one AIMessage from the speaker's respond,
then one copy per receive_message broadcast call, because every participant
aliases the same ConversationState, so the broadcast is not a no-op. -/
theorem C4_turn_history_amended (names : List String) (current thought response : String)
    (st : ConversationState) :
    (MultiAgentConversation.doTurn names current thought response st).history =
      st.history ++ BMessage.ai response ::
        List.replicate (names.countP (fun n => decide (n ≠ current)))
          (if current == "human" then BMessage.human response else BMessage.ai response) := by
  unfold MultiAgentConversation.doTurn
  rw [broadcast_history]
  simp [LangChainAgent.respond, ConversationState.add_message, ConversationState.add_thinking]

/-- C6: evaluated at the claim's own input - the contract-conforming echo
tool registered and a pending call echo(x := hi) - act() does not return the
tool's text "hi": the dispatcher calls tool.run, which the BaseTool contract
of app/tool/base.py does not define, so the AttributeError is caught and an
error text is returned.  The second conjunct shows that the tool's single
invocation entry point (execute) is called zero times, not once: the act
result is identical for every execute function. -/
theorem C6_dispatch_misses_execute :
    (ToolCallAgent.act c6State).2 =
      "Error executing tool " ++ sq ++ "echo" ++ sq ++ ": " ++ sq ++ "EchoTool" ++ sq ++
        " object has no attribute " ++ sq ++ "run" ++ sq ∧
    (∀ f : List (String × String) → Except String String,
      (ToolCallAgent.act { c6State with available_tools := [{ echoTool with execute := f }] }).2 =
        (ToolCallAgent.act c6State).2) :=
  ⟨rfl, fun _ => rfl⟩

/-- C7 counterexample: in the enhanced_devin engine a step naming the
unregistered tool "nope" yields the textual "not found" failed result
without raising, but execution does NOT continue to the next step: the run
halts as FAILED with only the not-found step in its history, and the
following reasoning step is never attempted. -/
theorem C7_counterexample :
    (EnhancedGenericAgent.execute_step [] invoke0 nopeStep).error =
      some ("Tool " ++ sq ++ "nope" ++ sq ++ " not found") ∧
    (EnhancedGenericAgent.execute_step [] invoke0 nopeStep).status = "failed" ∧
    (EnhancedGenericAgent.run [] invoke0 10 [nopeStep, reasonStep]).steps_history.map Prod.fst =
      [nopeStep] ∧
    (EnhancedGenericAgent.run [] invoke0 10 [nopeStep, reasonStep]).status = .failed :=
  ⟨rfl, rfl, rfl, rfl⟩

/-- C7 amended: an unregistered tool always produces an error string
containing "not found" and never an exception, in both engines; the
ToolCallAgent run loop then continues to the next turn (two not-found acts
in one run below), while the enhanced_devin engine records the not-found
step as failed and - recovery always failing - halts the run as FAILED
without attempting any later step. -/
theorem C7_not_found_amended :
    (∀ (msgs : List Message) (n : String) (args : List (String × String))
       (rest : List ToolCall) (specials : List String) (tools : List BaseTool),
      n ≠ "terminate" → ToolCollection.get_tool tools n = none →
      ToolCallAgent.act ⟨msgs, ⟨n, args⟩ :: rest, specials, tools⟩ =
        (⟨msgs, rest, specials, tools⟩, "Error: Tool " ++ sq ++ n ++ sq ++ " not found.")) ∧
    (ToolCallAgent.run think0 10 (some "go") tc0).1.messages =
      [⟨"user", "go"⟩,
       ⟨"system", "Action result: Error: Tool " ++ sq ++ "nope" ++ sq ++ " not found."⟩,
       ⟨"system", "Action result: Error: Tool " ++ sq ++ "nope" ++ sq ++ " not found."⟩] ∧
    (∀ (tools : List ETool) (invoke : String → List (String × String) → Except String String)
       (s1 : EStep) (rest : List EStep) (max_steps : Nat),
      0 < max_steps →
      (EnhancedGenericAgent.execute_step tools invoke s1).status = "failed" →
      (EnhancedGenericAgent.run tools invoke max_steps (s1 :: rest)).steps_history.map
          Prod.fst = [s1] ∧
      (EnhancedGenericAgent.run tools invoke max_steps (s1 :: rest)).status = .failed) := by
  refine ⟨?_, rfl, ?_⟩
  · intro msgs n args rest specials tools h1 h2
    simp [ToolCallAgent.act, h1, h2]
  · intro tools invoke s1 rest max_steps hmax hfail
    have c0 : max_steps ≠ 0 := by omega
    constructor <;>
      simp [EnhancedGenericAgent.run, EnhancedGenericAgent.runSteps,
        EnhancedGenericAgent.track_step, EnhancedGenericAgent.attempt_recovery,
        c0, hfail]

/-- Witness for C7 amended: the ToolCallAgent act on a pending "nope" call
against an empty registry, and the enhanced run at the concrete two-step
plan, with every hypothesis discharged concretely. -/
theorem C7_not_found_amended_witness :
    ToolCallAgent.act ⟨[], [⟨"nope", []⟩], ["terminate"], []⟩ =
      (⟨[], [], ["terminate"], []⟩, "Error: Tool " ++ sq ++ "nope" ++ sq ++ " not found.") ∧
    (EnhancedGenericAgent.run [] invoke0 3 [nopeStep, reasonStep]).steps_history.map
        Prod.fst = [nopeStep] ∧
    (EnhancedGenericAgent.run [] invoke0 3 [nopeStep, reasonStep]).status = .failed :=
  ⟨C7_not_found_amended.1 [] "nope" [] [] ["terminate"] [] (by decide) rfl,
   C7_not_found_amended.2.2 [] invoke0 nopeStep [reasonStep] 3 (by decide) (by decide)⟩

/-- C8: in the enhanced_devin engine, whenever the first step of a
three-step plan succeeds and the second fails (and the single recovery
attempt fails, as attempt_recovery always does), the run ends FAILED, only
steps one and two were ever attempted (step three never executes), and
exactly one step completed successfully. -/
theorem C8_failure_halts_plan (tools : List ETool)
    (invoke : String → List (String × String) → Except String String)
    (s1 s2 s3 : EStep) (max_steps : Nat) (hmax : 2 ≤ max_steps)
    (h1 : (EnhancedGenericAgent.execute_step tools invoke s1).status = "success")
    (h2 : (EnhancedGenericAgent.execute_step tools invoke s2).status = "failed") :
    (EnhancedGenericAgent.run tools invoke max_steps [s1, s2, s3]).status = .failed ∧
    (EnhancedGenericAgent.run tools invoke max_steps [s1, s2, s3]).steps_history.map
        Prod.fst = [s1, s2] ∧
    ((EnhancedGenericAgent.run tools invoke max_steps [s1, s2, s3]).execution_results.filter
        (fun r => r.status == "success")).length = 1 ∧
    EnhancedGenericAgent.attempt_recovery s2
      (EnhancedGenericAgent.execute_step tools invoke s2) = false := by
  have c0 : max_steps ≠ 0 := by omega
  have c1 : ¬ (max_steps ≤ 1) := by omega
  have hr1 : ¬ ((EnhancedGenericAgent.execute_step tools invoke s1).status = "failed") := by
    rw [h1]; decide
  refine ⟨?_, ?_, ?_, rfl⟩ <;>
    simp [EnhancedGenericAgent.run, EnhancedGenericAgent.runSteps,
      EnhancedGenericAgent.track_step, EnhancedGenericAgent.attempt_recovery,
      c0, c1, hr1, h1, h2]

/-- Witness for C8: tools t1 (succeeding) and t2 (raising "boom"), the
concrete plan es1, es2, es3 and cap 10; all hypotheses hold by computation. -/
theorem C8_failure_halts_plan_witness :
    (EnhancedGenericAgent.run [⟨"t1"⟩, ⟨"t2"⟩] invokeFail2 10 [es1, es2, es3]).status =
      .failed ∧
    (EnhancedGenericAgent.run [⟨"t1"⟩, ⟨"t2"⟩] invokeFail2 10
        [es1, es2, es3]).steps_history.map Prod.fst = [es1, es2] ∧
    ((EnhancedGenericAgent.run [⟨"t1"⟩, ⟨"t2"⟩] invokeFail2 10
        [es1, es2, es3]).execution_results.filter
        (fun r => r.status == "success")).length = 1 ∧
    EnhancedGenericAgent.attempt_recovery es2
      (EnhancedGenericAgent.execute_step [⟨"t1"⟩, ⟨"t2"⟩] invokeFail2 es2) = false :=
  C8_failure_halts_plan [⟨"t1"⟩, ⟨"t2"⟩] invokeFail2 es1 es2 es3 10
    (by decide) (by decide) (by decide)
